import Mathlib

/-!
Shallow embedding of `cardano-launcher` (TypeScript) for checking its
natural-language specification.

Source files embedded here:
  * `src/cardanoLauncher.ts` — the `Launcher` class, `V2Api`,
    `BackendExitedError`, `exitStatusMessage`, `makeServiceCommands`,
    `walletExe`, `waitForApi`, `stop`.
  * `src/cli.ts` — `combineStatus`.

The module `src/service.ts` (`Service`, `ServiceStatus`,
`ServiceExitStatus`, `setupService`, `serviceExitStatusMessage`) is not
part of the provided sources; where its behaviour is needed it is
modelled from the specification text, and each such definition carries a
doc comment saying so.

JavaScript is single threaded: promise continuations run to completion
one at a time on the event loop.  Concurrency is therefore modelled as
an arbitrary interleaving of atomic continuations, each continuation
being a pure state transformer translated from the source.
-/

namespace CardanoLauncher

/-- Modelled from the spec: `ServiceExitStatus` of the missing
`src/service.ts` — `{code: optional integer, signal: optional string,
err: optional error}` plus the executable name used by
`serviceExitStatusMessage` (the CLI reads `status.wallet.exe`). -/
structure ServiceExitStatus where
  exe : String
  code : Option Int
  signal : Option String
  err : Option String
  deriving Repr, DecidableEq

/-- From `src/cli.ts`, `combineStatus` (lines 18–24):

```
let code = _.reduce(statuses, (res, status) => res === null ? status.code : res, null);
let signal = _.reduce(statuses, (res, status) => res === null ? status.signal : res, null);
return code === null ? (signal === null ? 0 : 127) : code;
```
-/
def combineStatus (statuses : List ServiceExitStatus) : Int :=
  let code := statuses.foldl
    (fun res status => if res = none then status.code else res) none
  let signal := statuses.foldl
    (fun res status => if res = none then status.signal else res) none
  match code with
  | none => match signal with
    | none => 0
    | some _ => 127
  | some c => c

/-- The lodash-style reduce keeps an already found value. -/
theorem foldl_keep_some {α β : Type} [DecidableEq β] (g : α → Option β) (l : List α) (c : β) :
    l.foldl (fun res status => if res = none then g status else res) (some c) = some c := by
  induction l with
  | nil => rfl
  | cons s t ih => simpa using ih

/-- The lodash-style reduce starting from `null` returns the first
value on which `g` is non-null. -/
theorem foldl_firstSome {α β : Type} [DecidableEq β] (g : α → Option β) (l : List α) :
    l.foldl (fun res status => if res = none then g status else res) none
      = l.findSome? g := by
  induction l with
  | nil => rfl
  | cons s t ih =>
    simp only [List.foldl_cons, List.findSome?_cons]
    cases hg : g s with
    | none => simpa [hg] using ih
    | some b => simp [hg, foldl_keep_some]

/-- `findSome?` succeeds exactly when some element satisfies the test. -/
theorem findSome_isSome_iff_any {α β : Type} [DecidableEq β] (g : α → Option β) (l : List α) :
    (l.findSome? g).isSome = l.any (fun s => (g s).isSome) := by
  induction l with
  | nil => rfl
  | cons s t ih =>
    simp only [List.findSome?_cons, List.any_cons]
    cases hg : g s with
    | none => simpa [hg] using ih
    | some b => simp [hg]

/-- C3: `combineStatus` returns the first non-null `code` in list
order (a code of `0` counts as found); if every code is null it
returns `127` when some entry has a non-null `signal`, and otherwise
`0`.  The four concrete evaluations of the claim are included. -/
theorem combineStatus_first_nonnull_code (statuses : List ServiceExitStatus) :
    (combineStatus statuses =
      match statuses.findSome? (fun s => s.code) with
      | some c => c
      | none => if statuses.any (fun s => s.signal.isSome) then 127 else 0)
    ∧ combineStatus [⟨"w", some 0, none, none⟩, ⟨"n", some 1, none, none⟩] = 0
    ∧ combineStatus [⟨"w", none, none, none⟩, ⟨"n", some 1, none, none⟩] = 1
    ∧ combineStatus [⟨"w", none, some "KILL", none⟩, ⟨"n", none, none, none⟩] = 127
    ∧ combineStatus [⟨"w", none, none, none⟩, ⟨"n", none, none, none⟩] = 0 := by
  refine ⟨?_, rfl, rfl, rfl, rfl⟩
  simp only [combineStatus, foldl_firstSome]
  cases hc : statuses.findSome? (fun s => s.code) with
  | some c => rfl
  | none =>
    have hs := findSome_isSome_iff_any (fun s => s.signal) statuses
    cases hsig : statuses.findSome? (fun s => s.signal) with
    | none =>
      rw [hsig] at hs
      simp [← hs]
    | some sg =>
      rw [hsig] at hs
      simp [← hs]

/-- URL components of the wallet API, from `src/cardanoLauncher.ts`
lines 333–337. -/
structure RequestParams where
  port : Nat
  path : String
  hostname : String
  deriving Repr, DecidableEq

/-- Connection parameters for the `cardano-wallet` API
(`src/cardanoLauncher.ts` lines 343–354). -/
structure Api where
  baseUrl : String
  requestParams : RequestParams
  deriving Repr, DecidableEq

/-- From `src/cardanoLauncher.ts` lines 356–369, the `V2Api`
constructor:

```
const hostname = '127.0.0.1'
const path = '/v2/'
this.baseUrl = `http://$\x7bhostname\x7d:$\x7bport\x7d$\x7bpath\x7d`
this.requestParams = { port, path, hostname }
```
-/
def V2Api (port : Nat) : Api :=
  let hostname := "127.0.0.1"
  let path := "/v2/"
  { baseUrl := "http://" ++ hostname ++ ":" ++ toString port ++ path
  , requestParams := { port := port, path := path, hostname := hostname } }

/-- From `src/cardanoLauncher.ts` line 189: the `walletBackend`
object's `getApi` is `() => new V2Api(this.apiPort)`.  Its closure
captures only `this.apiPort`; no field of the launch configuration
(in particular not `listenAddress`) is read. -/
def walletBackendGetApi (apiPort : Nat) : Api := V2Api apiPort

/-- C10: for every recorded wallet API port `p`, `getApi()` returns an
`Api` whose `baseUrl` is exactly `"http://127.0.0.1:" ++ p ++ "/v2/"`
and whose `requestParams` are `{port := p, path := "/v2/", hostname :=
"127.0.0.1"}`; `getApi` takes no other input, so the result is
independent of any configured `listenAddress`. -/
theorem getApi_localhost_v2 (p : Nat) :
    walletBackendGetApi p =
      { baseUrl := "http://127.0.0.1:" ++ toString p ++ "/v2/"
      , requestParams := { port := p, path := "/v2/", hostname := "127.0.0.1" } } := by
  rfl

/-- The combined result of the two supervised processes
(`src/cardanoLauncher.ts` lines 374–377). -/
structure ExitStatus where
  wallet : ServiceExitStatus
  node : ServiceExitStatus
  deriving Repr, DecidableEq

/-- Modelled from the spec: `serviceExitStatusMessage` of the missing
`src/service.ts` — renders a one-line human string per entry:
"(name) exited with code N" / "with signal S" / the captured error
message. -/
def serviceExitStatusMessage (res : ServiceExitStatus) : String :=
  match res.code with
  | some c => res.exe ++ " exited with code " ++ toString c
  | none =>
    match res.signal with
    | some s => res.exe ++ " exited with signal " ++ s
    | none => res.err.getD ""

/-- From `src/cardanoLauncher.ts` lines 395–397:
`_.map(status, serviceExitStatusMessage).join('\n')`.  Lodash `map`
over the object literal `{ wallet, node }` (line 308) visits its own
properties in insertion order: `wallet` first, then `node`. -/
def exitStatusMessage (status : ExitStatus) : String :=
  String.intercalate "\n"
    [serviceExitStatusMessage status.wallet, serviceExitStatusMessage status.node]

/-- The error with which a failed `Launcher.start()` rejects
(`src/cardanoLauncher.ts` lines 383–390): an `Error` whose `message`
(set via `super(exitStatusMessage(status))`) is the formatted exit
status and which carries the full `ExitStatus` in its `status` field. -/
structure BackendExitedError where
  message : String
  status : ExitStatus
  deriving Repr, DecidableEq

/-- The `BackendExitedError` constructor. -/
def BackendExitedError.make (status : ExitStatus) : BackendExitedError :=
  { message := exitStatusMessage status, status := status }

/-- Modelled from the spec: the ordered status enum of the missing
`src/service.ts` — `{Starting, Started, Stopping, Stopped}`, totally
ordered so that "status > Started" means the process is no longer
healthily running. -/
inductive ServiceStatus
  | Starting
  | Started
  | Stopping
  | Stopped
  deriving Repr, DecidableEq

/-- The numeric value of the ordered status enum. -/
def ServiceStatus.toNat : ServiceStatus → Nat
  | .Starting => 0
  | .Started => 1
  | .Stopping => 2
  | .Stopped => 3

/-- Modelled from the spec: the state of one supervised process of the
missing `src/service.ts`.  `pendingOutcome` is the exit report the OS
will deliver once the process terminates; `exitStatus` holds the
captured report once the service is terminal; `signalsSent` counts the
termination signals issued to the underlying process. -/
structure ServiceState where
  status : ServiceStatus
  pendingOutcome : ServiceExitStatus
  exitStatus : Option ServiceExitStatus
  signalsSent : Nat
  deriving Repr, DecidableEq

/-- Modelled from the spec: `Service.stop` of the missing
`src/service.ts` — "Calling `stop()` multiple times (sequentially or
concurrently) must converge on one underlying termination sequence and
return the same final `ServiceExitStatus` to every caller — no
duplicate signals are sent."  A first call issues one termination
signal and records the outcome; any further call returns the recorded
outcome without touching the process. -/
def serviceStop (s : ServiceState) : ServiceState × ServiceExitStatus :=
  match s.exitStatus with
  | some es => (s, es)
  | none =>
    ({ s with
        status := .Stopped
        exitStatus := some s.pendingOutcome
        signalsSent := s.signalsSent + 1 }, s.pendingOutcome)

/-- The launcher-level state touched by `Launcher.stop`
(`src/cardanoLauncher.ts`): the two services, the one-shot `exited`
flag (line 163), and the list of emitted `exit` notifications
(each `this.walletBackend.events.emit('exit', status)`, line 311). -/
structure LauncherState where
  walletService : ServiceState
  nodeService : ServiceState
  exited : Bool
  exitEvents : List ExitStatus
  deriving Repr, DecidableEq

/-- From `src/cardanoLauncher.ts` lines 300–316, one complete
`Launcher.stop()` call run to completion:

```
return await Promise.all([
  this.walletService.stop(timeoutSeconds),
  this.nodeService.stop(timeoutSeconds)
]).then(([wallet, node]) => {
  const status = { wallet, node }
  if (!this.exited) {
    this.walletBackend.events.emit('exit', status)
    this.exited = true
  }
  return status
})
```
-/
def launcherStop (st : LauncherState) : LauncherState × ExitStatus :=
  let walletRes := serviceStop st.walletService
  let nodeRes := serviceStop st.nodeService
  let status : ExitStatus := { wallet := walletRes.2, node := nodeRes.2 }
  let st1 := { st with walletService := walletRes.1, nodeService := nodeRes.1 }
  if st1.exited = false then
    ({ st1 with exitEvents := st1.exitEvents ++ [status], exited := true }, status)
  else
    (st1, status)

/-!
Concurrent `stop()` calls.  JavaScript's event loop runs promise
continuations one at a time, so `k` concurrent `stop()` calls are an
interleaving of atomic steps: each call contributes a settlement of
`walletService.stop(..)`, a settlement of `nodeService.stop(..)`, and
— once both settled — the `.then(([wallet, node]) => ...)` continuation
that checks the `exited` gate.  Any interleaving of these atomic steps
is admitted.
-/

/-- One atomic event-loop step contributed by some `stop()` caller. -/
inductive StopOp
  | walletStop
  | nodeStop
  | finishStop
  deriving Repr, DecidableEq

/-- Apply one atomic step.  `finishStop` is the `.then` continuation of
lines 307–315: it reads the services' (by now recorded) exit statuses,
and emits `exit` only when the `exited` gate is still unset. -/
def applyStopOp (st : LauncherState) : StopOp → LauncherState
  | .walletStop => { st with walletService := (serviceStop st.walletService).1 }
  | .nodeStop => { st with nodeService := (serviceStop st.nodeService).1 }
  | .finishStop =>
    let status : ExitStatus :=
      { wallet := st.walletService.exitStatus.getD st.walletService.pendingOutcome
      , node := st.nodeService.exitStatus.getD st.nodeService.pendingOutcome }
    if st.exited = false then
      { st with exitEvents := st.exitEvents ++ [status], exited := true }
    else
      st

/-- Run an interleaving of atomic steps. -/
def runStopOps (st : LauncherState) (ops : List StopOp) : LauncherState :=
  ops.foldl applyStopOp st

/-- The one-shot gate invariant: before the first finishing
continuation the notification list is empty; afterwards it has exactly
one element. -/
def ExitGateInv (st : LauncherState) : Prop :=
  (st.exited = false ∧ st.exitEvents = []) ∨
    (st.exited = true ∧ st.exitEvents.length = 1)

theorem applyStopOp_gate {st : LauncherState} (op : StopOp)
    (h : ExitGateInv st) : ExitGateInv (applyStopOp st op) := by
  cases op with
  | walletStop => rcases h with ⟨h1, h2⟩ | ⟨h1, h2⟩
                  · exact Or.inl ⟨h1, h2⟩
                  · exact Or.inr ⟨h1, h2⟩
  | nodeStop => rcases h with ⟨h1, h2⟩ | ⟨h1, h2⟩
                · exact Or.inl ⟨h1, h2⟩
                · exact Or.inr ⟨h1, h2⟩
  | finishStop =>
    rcases h with ⟨h1, h2⟩ | ⟨h1, h2⟩
    · right
      simp [applyStopOp, h1, h2]
    · right
      simp [applyStopOp, h1, h2]

theorem runStopOps_gate {st : LauncherState} (ops : List StopOp)
    (h : ExitGateInv st) : ExitGateInv (runStopOps st ops) := by
  induction ops generalizing st with
  | nil => exact h
  | cons op rest ih => exact ih (applyStopOp_gate op h)

theorem applyStopOp_exited_mono {st : LauncherState} (op : StopOp)
    (h : st.exited = true) : (applyStopOp st op).exited = true := by
  cases op with
  | walletStop => exact h
  | nodeStop => exact h
  | finishStop => simp [applyStopOp, h]

theorem runStopOps_exited_mono {st : LauncherState} (ops : List StopOp)
    (h : st.exited = true) : (runStopOps st ops).exited = true := by
  induction ops generalizing st with
  | nil => exact h
  | cons op rest ih => exact ih (applyStopOp_exited_mono op h)

theorem applyStopOp_finish_exited (st : LauncherState) :
    (applyStopOp st StopOp.finishStop).exited = true := by
  by_cases hex : st.exited = true
  · simp [applyStopOp, hex]
  · have hf : st.exited = false := by simpa using hex
    simp [applyStopOp, hf]

theorem runStopOps_finish_exited {st : LauncherState} (ops : List StopOp)
    (h : StopOp.finishStop ∈ ops) : (runStopOps st ops).exited = true := by
  induction ops generalizing st with
  | nil => cases h
  | cons op rest ih =>
    rcases List.mem_cons.mp h with rfl | hrest
    · show (runStopOps (applyStopOp st StopOp.finishStop) rest).exited = true
      exact runStopOps_exited_mono rest (applyStopOp_finish_exited st)
    · exact ih hrest

/-- C1: the `exit` notification fires at most once per `Launcher`
instance, over every interleaving of the atomic event-loop steps of any
number of `stop()` calls; as soon as at least one `stop()` call's
finishing continuation has run, exactly one notification has fired. -/
theorem exit_notification_at_most_once (st0 : LauncherState)
    (ops : List StopOp)
    (h0 : st0.exited = false) (h1 : st0.exitEvents = []) :
    (runStopOps st0 ops).exitEvents.length ≤ 1
    ∧ (StopOp.finishStop ∈ ops → (runStopOps st0 ops).exitEvents.length = 1) := by
  have hinv : ExitGateInv (runStopOps st0 ops) :=
    runStopOps_gate ops (Or.inl ⟨h0, h1⟩)
  constructor
  · rcases hinv with ⟨_, h⟩ | ⟨_, h⟩
    · simp [h]
    · omega
  · intro hmem
    have hex := @runStopOps_finish_exited st0 ops hmem
    rcases hinv with ⟨hfalse, _⟩ | ⟨_, h⟩
    · rw [hex] at hfalse
      cases hfalse
    · exact h

/-- A freshly constructed launcher whose two services are running. -/
def freshLauncher : LauncherState :=
  { walletService :=
      { status := ServiceStatus.Started
      , pendingOutcome := { exe := "cardano-wallet-byron", code := some 0, signal := none, err := none }
      , exitStatus := none
      , signalsSent := 0 }
  , nodeService :=
      { status := ServiceStatus.Started
      , pendingOutcome := { exe := "cardano-node", code := some 1, signal := none, err := none }
      , exitStatus := none
      , signalsSent := 0 }
  , exited := false
  , exitEvents := [] }

/-- One interleaving of the atomic steps of four concurrent `stop()`
calls: every call's two service-stop settlements precede its finishing
continuation. -/
def fourConcurrentStops : List StopOp :=
  [ StopOp.walletStop, StopOp.nodeStop, StopOp.walletStop, StopOp.finishStop
  , StopOp.nodeStop, StopOp.walletStop, StopOp.nodeStop, StopOp.finishStop
  , StopOp.finishStop, StopOp.walletStop, StopOp.nodeStop, StopOp.finishStop ]

/-- Witness for C1: four concurrent `stop()` calls on a fresh launcher
yield exactly one emitted `exit` notification. -/
theorem exit_notification_at_most_once_witness :
    (runStopOps freshLauncher fourConcurrentStops).exitEvents.length ≤ 1
    ∧ (StopOp.finishStop ∈ fourConcurrentStops →
        (runStopOps freshLauncher fourConcurrentStops).exitEvents.length = 1) :=
  exit_notification_at_most_once freshLauncher fourConcurrentStops rfl rfl

/-- Iterated further `stop()` calls. -/
def iterStop (st : LauncherState) : Nat → LauncherState
  | 0 => st
  | n + 1 => (launcherStop (iterStop st n)).1

/-- After one complete `stop()` call the launcher state is a fixpoint
of `stop()`. -/
theorem launcherStop_fixpoint (st0 : LauncherState) :
    launcherStop (launcherStop st0).1 = ((launcherStop st0).1, (launcherStop st0).2) := by
  rcases st0 with ⟨⟨ws, wp, wes, wsig⟩, ⟨ns, np, nes, nsig⟩, ex, evs⟩
  cases wes <;> cases nes <;> cases ex <;>
    simp [launcherStop, serviceStop]

/-- C5: once the first `Launcher.stop()` call has completed, every
later `stop()` call returns the very same `ExitStatus` and leaves the
launcher state untouched — in particular it sends no further
termination signal to the wallet or node service and emits no further
notification. -/
theorem stop_returns_memoized_status (st0 : LauncherState) :
    (∀ n : Nat,
      launcherStop (iterStop (launcherStop st0).1 n)
        = ((launcherStop st0).1, (launcherStop st0).2))
    ∧ (∀ n : Nat,
        (iterStop (launcherStop st0).1 n).walletService.signalsSent
          = (launcherStop st0).1.walletService.signalsSent
        ∧ (iterStop (launcherStop st0).1 n).nodeService.signalsSent
          = (launcherStop st0).1.nodeService.signalsSent
        ∧ (iterStop (launcherStop st0).1 n).exitEvents
          = (launcherStop st0).1.exitEvents) := by
  have hfix : ∀ n : Nat, iterStop (launcherStop st0).1 n = (launcherStop st0).1 := by
    intro n
    induction n with
    | zero => rfl
    | succ m ih =>
      show (launcherStop (iterStop (launcherStop st0).1 m)).1 = (launcherStop st0).1
      rw [ih, launcherStop_fixpoint]
  constructor
  · intro n
    rw [hfix n, launcherStop_fixpoint]
  · intro n
    rw [hfix n]
    exact ⟨rfl, rfl, rfl⟩

/-!
The readiness prober, `Launcher.waitForApi`
(`src/cardanoLauncher.ts` lines 258–287).  A timer fires `poll` every
250 ms; each tick observes the current value of the stop predicate and
of `this.apiPort` and acts:

```
const poll = (): void => {
  if (stop()) {
    clearInterval(timer)
    reject(new Error('Polling stopped'))
  } else if (this.apiPort !== 0) {
    ... new net.Socket().connect(addr, () => { clearInterval(timer); resolve() }) ...
  }
}
```
-/

/-- What one tick of `poll` does. -/
inductive PollAction
  /-- `clearInterval(timer); reject(new Error(msg))`. -/
  | rejectPolling (msg : String)
  /-- A TCP connection attempt to `127.0.0.1:port`; on success the wait
  resolves, on failure the timer keeps running. -/
  | connectAttempt (port : Nat)
  /-- Neither branch taken: no connection attempt, no settlement, the
  timer keeps running. -/
  | keepWaiting
  deriving Repr, DecidableEq

/-- One tick of `poll`, as a function of the stop predicate's current
value and the current `apiPort`. -/
def pollTick (stop : Bool) (apiPort : Nat) : PollAction :=
  if stop then PollAction.rejectPolling "Polling stopped"
  else if apiPort ≠ 0 then PollAction.connectAttempt apiPort
  else PollAction.keepWaiting

/-- Run the poll loop over a sequence of tick observations
`(stop predicate, apiPort)`, returning the first action that leaves
`keepWaiting` — `none` when every tick kept waiting, i.e. the wait has
neither resolved nor rejected and the timer still runs. -/
def pollRun : List (Bool × Nat) → Option PollAction
  | [] => none
  | (stop, port) :: rest =>
    match pollTick stop port with
    | PollAction.keepWaiting => pollRun rest
    | act => some act

/-- Ticks that keep waiting are skipped by the loop. -/
theorem pollRun_skip (pre l : List (Bool × Nat))
    (hpre : ∀ t ∈ pre, t.1 = false ∧ t.2 = 0) :
    pollRun (pre ++ l) = pollRun l := by
  induction pre with
  | nil => rfl
  | cons t rest ih =>
    obtain ⟨h1, h2⟩ := hpre t (List.mem_cons_self t rest)
    obtain ⟨b, p⟩ := t
    cases h1
    cases h2
    show pollRun ((false, 0) :: (rest ++ l)) = pollRun l
    rw [show pollRun ((false, 0) :: (rest ++ l)) = pollRun (rest ++ l) from rfl]
    exact ih fun t ht => hpre t (List.mem_cons_of_mem _ ht)

/-- C8: while the target port is unknown (`apiPort = 0`) and the stop
predicate is false, every tick makes no TCP connection attempt and the
wait neither resolves nor rejects; the loop keeps polling, and the
first tick at which the stop predicate is true rejects the wait with
the polling-aborted error, while the first tick at which the port has
become known (still un-stopped) attempts a TCP connection to it. -/
theorem waitForApi_tolerates_unknown_port
    (pre rest : List (Bool × Nat)) (p : Nat)
    (hpre : ∀ t ∈ pre, t.1 = false ∧ t.2 = 0) (hp : p ≠ 0) :
    pollRun pre = none
    ∧ (∀ t ∈ pre, ∀ q, pollTick t.1 t.2 ≠ PollAction.connectAttempt q)
    ∧ pollRun (pre ++ (true, 0) :: rest)
        = some (PollAction.rejectPolling "Polling stopped")
    ∧ pollRun (pre ++ (false, p) :: rest) = some (PollAction.connectAttempt p) := by
  refine ⟨?_, ?_, ?_, ?_⟩
  · have h := pollRun_skip pre [] hpre
    simpa using h
  · intro t ht q
    obtain ⟨h1, h2⟩ := hpre t ht
    rw [h1, h2]
    simp [pollTick]
  · rw [pollRun_skip pre _ hpre]
    rfl
  · rw [pollRun_skip pre _ hpre]
    show pollRun ((false, p) :: rest) = some (PollAction.connectAttempt p)
    simp [pollRun, pollTick, hp]

/-- Witness for C8: two unknown-port ticks keep waiting without a
connection attempt, then a stop tick rejects and a known-port tick
connects. -/
theorem waitForApi_tolerates_unknown_port_witness :
    (∀ t ∈ [(false, 0), (false, 0)], t.1 = false ∧ t.2 = 0)
    ∧ (8090 : Nat) ≠ 0
    ∧ (pollRun [(false, 0), (false, 0)] = none
      ∧ (∀ t ∈ [(false, 0), (false, 0)], ∀ q,
          pollTick t.1 t.2 ≠ PollAction.connectAttempt q)
      ∧ pollRun ([(false, 0), (false, 0)] ++ (true, 0) :: [])
          = some (PollAction.rejectPolling "Polling stopped")
      ∧ pollRun ([(false, 0), (false, 0)] ++ (false, 8090) :: [])
          = some (PollAction.connectAttempt 8090)) :=
  ⟨by decide, by decide,
    waitForApi_tolerates_unknown_port [(false, 0), (false, 0)] [] 8090
      (by decide) (by decide)⟩

/-!
The `start()` failure path.  `Launcher.start()`
(`src/cardanoLauncher.ts` lines 231–251) returns

```
return await new Promise((resolve, reject) => {
  this.walletBackend.events.on('ready', resolve)
  this.walletBackend.events.on('exit', st => reject(new BackendExitedError(st)))
})
```

so the pending promise settles at the first `ready` or `exit`
emission.  `EventEmitter.emit` runs its listeners synchronously, so the
emission of `exit` inside `stop()`'s continuation (line 311)
immediately rejects a pending `start()` promise.
-/

/-- Launcher state during a run in which `start()` has been called: the
service/gate state plus the settlement of the `start()` promise
(`none` while pending; a settled promise ignores later `resolve` and
`reject` calls). -/
structure RunState where
  launcher : LauncherState
  startSettled : Option (Except BackendExitedError Api)
  apiPort : Nat
  deriving Repr

/-- `this.walletBackend.events.emit('exit', status)` (line 311)
together with its synchronously run listener from `start()`
(lines 247–249): record the notification and reject a still-pending
`start()` promise with `new BackendExitedError(status)`. -/
def emitExit (st : RunState) (status : ExitStatus) : RunState :=
  { st with
      launcher :=
        { st.launcher with exitEvents := st.launcher.exitEvents ++ [status] }
      startSettled :=
        match st.startSettled with
        | none => some (Except.error (BackendExitedError.make status))
        | some r => some r }

/-- `Launcher.stop()` (lines 300–316) run to completion within a
started run: stop both services, then — gated on `exited` — emit
`exit` (which also rejects a pending `start()`). -/
def launcherStopRun (st : RunState) : RunState × ExitStatus :=
  let walletRes := serviceStop st.launcher.walletService
  let nodeRes := serviceStop st.launcher.nodeService
  let status : ExitStatus := { wallet := walletRes.2, node := nodeRes.2 }
  let st1 : RunState :=
    { st with
        launcher :=
          { st.launcher with
              walletService := walletRes.1
              nodeService := nodeRes.1 } }
  if st1.launcher.exited = false then
    let st2 := emitExit st1 status
    ({ st2 with launcher := { st2.launcher with exited := true } }, status)
  else
    (st1, status)

/-- The `statusChanged` listeners installed by the constructor
(lines 200–212): on a transition to `Stopped` they call
`this.stop()` (discarding its result). -/
def statusChangedHandler (st : RunState) (status : ServiceStatus) : RunState :=
  if status = ServiceStatus.Stopped then (launcherStopRun st).1 else st

/-- Modelled from the spec: the node process exits on its own.  The
missing `src/service.ts` captures the OS exit report, transitions the
node `Service` to `Stopped`, and emits `statusChanged(Stopped)`, which
runs the constructor's node listener (lines 207–212); that listener's
`stop()` drives the wallet service to `Stopped`, whose own
`statusChanged(Stopped)` emission then runs the wallet listener
(lines 200–205). -/
def nodeExitsEvent (st : RunState) : RunState :=
  let node1 :=
    { st.launcher.nodeService with
        status := ServiceStatus.Stopped
        exitStatus := some st.launcher.nodeService.pendingOutcome }
  let st1 := { st with launcher := { st.launcher with nodeService := node1 } }
  let st2 := statusChangedHandler st1 ServiceStatus.Stopped
  statusChangedHandler st2 ServiceStatus.Stopped

/-- Modelled from the spec: the wallet process exits on its own —
symmetric to `nodeExitsEvent`. -/
def walletExitsEvent (st : RunState) : RunState :=
  let wallet1 :=
    { st.launcher.walletService with
        status := ServiceStatus.Stopped
        exitStatus := some st.launcher.walletService.pendingOutcome }
  let st1 := { st with launcher := { st.launcher with walletService := wallet1 } }
  let st2 := statusChangedHandler st1 ServiceStatus.Stopped
  statusChangedHandler st2 ServiceStatus.Stopped

/-- C4: while the launcher has not itself initiated shutdown
(`exited = false`) and `start()` is still pending, either service's
transition to `Stopped` triggers the launcher's `stop()`; in
particular, if the node exits before the API port becomes connectable,
the wallet service also reaches `Stopped` and `start()` rejects (with
the combined exit status), and symmetrically a wallet exit drives the
node service to `Stopped`. -/
theorem service_death_propagates (st : RunState)
    (hw : st.launcher.walletService.exitStatus = none)
    (hm : st.launcher.nodeService.exitStatus = none)
    (hx : st.launcher.exited = false)
    (hs : st.startSettled = none) :
    (nodeExitsEvent st).launcher.walletService.status = ServiceStatus.Stopped
    ∧ (nodeExitsEvent st).startSettled
        = some (Except.error (BackendExitedError.make
            { wallet := st.launcher.walletService.pendingOutcome
            , node := st.launcher.nodeService.pendingOutcome }))
    ∧ (walletExitsEvent st).launcher.nodeService.status = ServiceStatus.Stopped
    ∧ (walletExitsEvent st).startSettled ≠ none := by
  refine ⟨?_, ?_, ?_, ?_⟩ <;>
    simp [nodeExitsEvent, walletExitsEvent, statusChangedHandler,
      launcherStopRun, emitExit, serviceStop, hw, hm, hx, hs]

/-- A started run on a fresh launcher, `start()` pending, port not yet
known. -/
def freshRun : RunState :=
  { launcher := freshLauncher
  , startSettled := none
  , apiPort := 0 }

/-- Witness for C4 at the fresh started run. -/
theorem service_death_propagates_witness :
    (nodeExitsEvent freshRun).launcher.walletService.status = ServiceStatus.Stopped
    ∧ (nodeExitsEvent freshRun).startSettled
        = some (Except.error (BackendExitedError.make
            { wallet := freshRun.launcher.walletService.pendingOutcome
            , node := freshRun.launcher.nodeService.pendingOutcome }))
    ∧ (walletExitsEvent freshRun).launcher.nodeService.status = ServiceStatus.Stopped
    ∧ (walletExitsEvent freshRun).startSettled ≠ none :=
  service_death_propagates freshRun rfl rfl rfl rfl

/-- Joining a pair of lines. -/
theorem intercalate_pair (a b : String) :
    String.intercalate "\n" [a, b] = a ++ "\n" ++ b := by
  rfl

/-- C7: whenever `start()` fails because a process exited before
readiness, the rejection value is a `BackendExitedError` that embeds
the full combined `ExitStatus`, and whose message is the wallet line
followed by the node line, joined by a newline. -/
theorem start_failure_rejection_shape (st : RunState)
    (hw : st.launcher.walletService.exitStatus = none)
    (hn : st.launcher.nodeService.exitStatus = none)
    (hx : st.launcher.exited = false)
    (hs : st.startSettled = none) :
    (nodeExitsEvent st).startSettled
      = some (Except.error (BackendExitedError.make
          { wallet := st.launcher.walletService.pendingOutcome
          , node := st.launcher.nodeService.pendingOutcome }))
    ∧ (∀ status : ExitStatus,
        (BackendExitedError.make status).status = status
        ∧ (BackendExitedError.make status).message
            = serviceExitStatusMessage status.wallet ++ "\n"
              ++ serviceExitStatusMessage status.node) := by
  constructor
  · simp [nodeExitsEvent, statusChangedHandler, launcherStopRun, emitExit,
      serviceStop, hw, hn, hx, hs]
  · intro status
    exact ⟨rfl, by rw [BackendExitedError.make, exitStatusMessage, intercalate_pair]⟩

/-- Witness for C7 at the fresh started run. -/
theorem start_failure_rejection_shape_witness :
    (nodeExitsEvent freshRun).startSettled
      = some (Except.error (BackendExitedError.make
          { wallet := freshRun.launcher.walletService.pendingOutcome
          , node := freshRun.launcher.nodeService.pendingOutcome }))
    ∧ (∀ status : ExitStatus,
        (BackendExitedError.make status).status = status
        ∧ (BackendExitedError.make status).message
            = serviceExitStatusMessage status.wallet ++ "\n"
              ++ serviceExitStatusMessage status.node) :=
  start_failure_rejection_shape freshRun rfl rfl rfl rfl

/-!
`ready` emission.  Each call to `start()` (lines 231–251) starts its
own `waitForApi` polling chain and registers its own continuation:

```
this.waitForApi(stopWaiting)
  .then(() => { this.walletBackend.events.emit('ready', this.walletBackend.getApi()) })
```

There is no once-guard on `ready` (unlike `exit`, which is gated by
`this.exited`): every `start()` call whose poll loop connects
successfully emits its own `ready` notification.  A `ready` emission
resolves every still-pending `start()` promise with the emitted `Api`
(line 246); a promise that is already settled ignores it.
-/

/-- State of the `ready` protocol. -/
structure ReadyState where
  apiPort : Nat
  /-- Active `waitForApi` poll loops, one per `start()` call. -/
  pollers : Nat
  /-- Every emission of the `ready` notification, in order. -/
  readyEvents : List Api
  /-- One promise per `start()` call; `none` while pending. -/
  startPromises : List (Option Api)
  deriving Repr, DecidableEq

/-- Atomic event-loop steps of the `ready` protocol. -/
inductive ReadyEv
  /-- `start()` invoked: a new poll loop and a new pending promise. -/
  | startCall
  /-- One active poll loop's socket connects: `clearInterval(timer)`,
  then `emit('ready', this.walletBackend.getApi())`. -/
  | connectSucceeds
  deriving Repr, DecidableEq

/-- Apply one step. -/
def applyReadyEv (st : ReadyState) : ReadyEv → ReadyState
  | ReadyEv.startCall =>
    { st with
        pollers := st.pollers + 1
        startPromises := st.startPromises ++ [none] }
  | ReadyEv.connectSucceeds =>
    if st.pollers = 0 then st
    else
      let api := walletBackendGetApi st.apiPort
      { st with
          pollers := st.pollers - 1
          readyEvents := st.readyEvents ++ [api]
          startPromises := st.startPromises.map (fun o =>
            match o with
            | none => some api
            | some a => some a) }

/-- Run a sequence of steps. -/
def runReady (st : ReadyState) (evs : List ReadyEv) : ReadyState :=
  evs.foldl applyReadyEv st

/-- A launcher on which `start()` has not yet been called, wallet API
port `port`. -/
def initReady (port : Nat) : ReadyState :=
  { apiPort := port, pollers := 0, readyEvents := [], startPromises := [] }

/-- Counterexample to C9 as stated: invoking `start()` twice on the
same instance and letting both poll loops connect emits the `ready`
notification twice — it is not once-per-instance. -/
theorem ready_fires_twice_after_two_starts :
    (runReady (initReady 8090)
      [ReadyEv.startCall, ReadyEv.startCall,
       ReadyEv.connectSucceeds, ReadyEv.connectSucceeds]).readyEvents.length = 2 := by
  rfl

/-- Emissions plus live pollers track the number of `start()` calls. -/
theorem runReady_count (st : ReadyState) (evs : List ReadyEv) :
    (runReady st evs).readyEvents.length + (runReady st evs).pollers
      = st.readyEvents.length + st.pollers + evs.count ReadyEv.startCall := by
  induction evs generalizing st with
  | nil => simp [runReady]
  | cons ev rest ih =>
    show (runReady (applyReadyEv st ev) rest).readyEvents.length
        + (runReady (applyReadyEv st ev) rest).pollers = _
    rw [ih (applyReadyEv st ev)]
    cases ev with
    | startCall =>
      simp [applyReadyEv, List.count_cons]
      omega
    | connectSucceeds =>
      by_cases hp : st.pollers = 0
      · simp [applyReadyEv, hp, List.count_cons]
      · simp [applyReadyEv, hp, List.count_cons]
        omega

/-- With no live poll loop, further connection events change nothing. -/
theorem runReady_noPoller_noop (st : ReadyState) (h : st.pollers = 0) (m : Nat) :
    runReady st (List.replicate m ReadyEv.connectSucceeds) = st := by
  induction m with
  | zero => rfl
  | succ k ih =>
    show runReady (applyReadyEv st ReadyEv.connectSucceeds)
        (List.replicate k ReadyEv.connectSucceeds) = st
    rw [show applyReadyEv st ReadyEv.connectSucceeds = st by simp [applyReadyEv, h]]
    exact ih

/-- C9 amended: the `ready` notification fires at most once per
`start()` invocation (never more often than `start()` was called), and
for an instance on which `start()` is invoked exactly once it fires at
most once; when the readiness wait succeeds it fires exactly once,
carrying the same `Api` value with which the `start()` promise
resolves. -/
theorem ready_at_most_once_per_start (evs : List ReadyEv) (port n : Nat)
    (hn : 1 ≤ n) :
    (runReady (initReady port) evs).readyEvents.length
        ≤ evs.count ReadyEv.startCall
    ∧ (runReady (initReady port)
        (ReadyEv.startCall :: List.replicate n ReadyEv.connectSucceeds)).readyEvents
        = [walletBackendGetApi port]
    ∧ (runReady (initReady port)
        (ReadyEv.startCall :: List.replicate n ReadyEv.connectSucceeds)).startPromises
        = [some (walletBackendGetApi port)] := by
  have hrun : runReady (initReady port)
      (ReadyEv.startCall :: List.replicate n ReadyEv.connectSucceeds)
      = { apiPort := port, pollers := 0
        , readyEvents := [walletBackendGetApi port]
        , startPromises := [some (walletBackendGetApi port)] } := by
    obtain ⟨m, rfl⟩ : ∃ m, n = m + 1 := ⟨n - 1, by omega⟩
    show runReady (applyReadyEv (initReady port) ReadyEv.startCall)
        (List.replicate (m + 1) ReadyEv.connectSucceeds) = _
    rw [List.replicate_succ]
    show runReady
        (applyReadyEv (applyReadyEv (initReady port) ReadyEv.startCall)
          ReadyEv.connectSucceeds)
        (List.replicate m ReadyEv.connectSucceeds) = _
    rw [runReady_noPoller_noop _ (by rfl) m]
    rfl
  refine ⟨?_, ?_, ?_⟩
  · have h := runReady_count (initReady port) evs
    have h2 : (initReady port).readyEvents.length = 0 := rfl
    have h3 : (initReady port).pollers = 0 := rfl
    rw [h2, h3] at h
    omega
  · rw [hrun]
  · rw [hrun]

/-- Witness for C9 amended, at `port = 8090` with one `start()` call
and two poll ticks after the port opened. -/
theorem ready_at_most_once_per_start_witness :
    (runReady (initReady 8090)
      [ReadyEv.startCall, ReadyEv.connectSucceeds]).readyEvents.length
        ≤ [ReadyEv.startCall, ReadyEv.connectSucceeds].count ReadyEv.startCall
    ∧ (runReady (initReady 8090)
        (ReadyEv.startCall :: List.replicate 2 ReadyEv.connectSucceeds)).readyEvents
        = [walletBackendGetApi 8090]
    ∧ (runReady (initReady 8090)
        (ReadyEv.startCall :: List.replicate 2 ReadyEv.connectSucceeds)).startPromises
        = [some (walletBackendGetApi 8090)] :=
  ready_at_most_once_per_start
    [ReadyEv.startCall, ReadyEv.connectSucceeds] 8090 2 (by decide)

/-!
Startup ordering.  The asynchronous tasks of launcher construction and
`start()`, and their completion dependencies.
-/

/-- Completion events of the startup tasks. -/
inductive StartupEv
  | mkdirDone
  | nodeDescDone
  | walletDescDone
  | nodeSpawned
  | walletSpawned
  deriving Repr, DecidableEq

/-- Dependency structure of the startup tasks, translated from the
promise chains of the source:

* `makeServiceCommands` (lines 440–454):
  `const node = mkdirp(config.stateDir).then(... nodeExe ...)` — the
  node's process description is computed after the state directory
  exists; `const wallet = node.then(... walletExe ...)` — the wallet's
  process description is computed once the node's description
  resolves (chained on the description, not on the node having been
  spawned).
* `Launcher.start` (lines 231–233):
  `await this.nodeService.start()` then
  `await this.walletService.start()` — the wallet spawn attempt begins
  only after the node spawn was confirmed.
* Modelled from the spec: `Service.start()` of the missing
  `src/service.ts` spawns its process once its `StartService` promise
  has resolved, and "resolves once the process has been spawned". -/
def prereqs : StartupEv → List StartupEv
  | StartupEv.mkdirDone => []
  | StartupEv.nodeDescDone => [StartupEv.mkdirDone]
  | StartupEv.walletDescDone => [StartupEv.nodeDescDone]
  | StartupEv.nodeSpawned => [StartupEv.nodeDescDone]
  | StartupEv.walletSpawned => [StartupEv.walletDescDone, StartupEv.nodeSpawned]

/-- `isValidFrom done t` holds when `t` continues an execution in which
the events of `done` have already completed: each event completes at
most once and only after all of its prerequisites. -/
def isValidFrom (done : List StartupEv) : List StartupEv → Bool
  | [] => true
  | e :: rest =>
    (prereqs e).all (fun p => done.contains p) && !done.contains e
      && isValidFrom (e :: done) rest

/-- An execution of the startup protocol from the beginning. -/
def isValidTrace (t : List StartupEv) : Bool := isValidFrom [] t

/-- In a valid continuation, every prerequisite of an occurring event
has completed before it. -/
theorem isValidFrom_prereq (t : List StartupEv) :
    ∀ (done l1 l2 : List StartupEv) (e : StartupEv),
      isValidFrom done t = true → t = l1 ++ e :: l2 →
      ∀ p ∈ prereqs e, p ∈ done ∨ p ∈ l1 := by
  induction t with
  | nil =>
    intro done l1 l2 e _ ht
    exact absurd ht (by simp)
  | cons x rest ih =>
    intro done l1 l2 e hv ht p hp
    have hv1 : (prereqs x).all (fun q => done.contains q) = true
        ∧ done.contains x = false ∧ isValidFrom (x :: done) rest = true := by
      simp only [isValidFrom, Bool.and_eq_true, Bool.not_eq_true'] at hv
      exact ⟨hv.1.1, hv.1.2, hv.2⟩
    cases l1 with
    | nil =>
      simp only [List.nil_append, List.cons.injEq] at ht
      obtain ⟨rfl, _⟩ := ht
      left
      have := List.all_eq_true.mp hv1.1 p hp
      simpa using this
    | cons y l1h =>
      simp only [List.cons_append, List.cons.injEq] at ht
      obtain ⟨hxy, hrest⟩ := ht
      have hih := ih (x :: done) l1h l2 e hv1.2.2 hrest p hp
      rcases hih with hd | hl
      · rcases List.mem_cons.mp hd with rfl | hdone
        · right
          rw [hxy]
          exact List.mem_cons_self y l1h
        · left
          exact hdone
      · right
        exact List.mem_cons_of_mem y hl

/-- C6 counterexample: a valid execution in which the wallet's process
description is computed before the node process is spawned — the
wallet's description task is chained on the node's description, not on
the node's spawn confirmation. -/
theorem wallet_desc_can_precede_node_spawn :
    isValidTrace
        [StartupEv.mkdirDone, StartupEv.nodeDescDone, StartupEv.walletDescDone,
         StartupEv.nodeSpawned, StartupEv.walletSpawned] = true
    ∧ [StartupEv.mkdirDone, StartupEv.nodeDescDone, StartupEv.walletDescDone,
       StartupEv.nodeSpawned, StartupEv.walletSpawned].indexOf
        StartupEv.walletDescDone
      < [StartupEv.mkdirDone, StartupEv.nodeDescDone, StartupEv.walletDescDone,
         StartupEv.nodeSpawned, StartupEv.walletSpawned].indexOf
        StartupEv.nodeSpawned := by
  decide

/-- C6 amended: in every execution, confirmation that the node process
has been spawned strictly precedes the wallet spawn attempt (and the
wallet's process description is computed before its spawn); the
description computation itself is ordered only after the node's
description. -/
theorem node_spawn_precedes_wallet_spawn (t l1 l2 : List StartupEv)
    (hv : isValidTrace t = true)
    (ht : t = l1 ++ StartupEv.walletSpawned :: l2) :
    StartupEv.nodeSpawned ∈ l1 ∧ StartupEv.walletDescDone ∈ l1 := by
  have h := isValidFrom_prereq t [] l1 l2 StartupEv.walletSpawned hv ht
  constructor
  · rcases h StartupEv.nodeSpawned (by simp [prereqs]) with hc | hc
    · exact absurd hc (by simp)
    · exact hc
  · rcases h StartupEv.walletDescDone (by simp [prereqs]) with hc | hc
    · exact absurd hc (by simp)
    · exact hc

/-- Witness for C6 amended, at the concrete valid execution in which
all five tasks complete. -/
theorem node_spawn_precedes_wallet_spawn_witness :
    StartupEv.nodeSpawned ∈
        [StartupEv.mkdirDone, StartupEv.nodeDescDone, StartupEv.walletDescDone,
         StartupEv.nodeSpawned]
    ∧ StartupEv.walletDescDone ∈
        [StartupEv.mkdirDone, StartupEv.nodeDescDone, StartupEv.walletDescDone,
         StartupEv.nodeSpawned] :=
  node_spawn_precedes_wallet_spawn
    [StartupEv.mkdirDone, StartupEv.nodeDescDone, StartupEv.walletDescDone,
     StartupEv.nodeSpawned, StartupEv.walletSpawned]
    [StartupEv.mkdirDone, StartupEv.nodeDescDone, StartupEv.walletDescDone,
     StartupEv.nodeSpawned]
    [] (by decide) rfl

/-!
Configuration and `walletExe`.
-/

/-- The backend-specific node configuration
(`config.nodeConfig`, tagged by `kind`).  The variant modules
`byron.ts` / `shelley.ts` / `jormungandr.ts` are not among the
sources; each variant carries exactly the fields that
`src/cardanoLauncher.ts` reads from it. -/
inductive NodeConfig
  | byron (genesisFile : Option String) (socketFile : Option String)
  | shelley
  | jormungandr (restPort : Option Nat) (genesisBlockHash : String)
  deriving Repr, DecidableEq

/-- The `kind` tag. -/
def NodeConfig.kind : NodeConfig → String
  | NodeConfig.byron _ _ => "byron"
  | NodeConfig.shelley => "shelley"
  | NodeConfig.jormungandr _ _ => "jormungandr"

/-- `LaunchConfig` (`src/cardanoLauncher.ts` lines 47–114), restricted
to the fields the embedded functions read. -/
structure LaunchConfig where
  stateDir : String
  networkName : String
  apiPort : Option Nat
  listenAddress : Option String
  stakePoolRegistryUrl : Option String
  syncToleranceSeconds : Option Nat
  nodeConfig : NodeConfig
  deriving Repr, DecidableEq

/-- `WalletStartService` (lines 436–438): a `StartService` plus the
chosen `apiPort`. -/
structure WalletStartService where
  command : String
  args : List String
  extraEnv : List (String × String)
  supportsCleanShutdown : Bool
  apiPort : Nat
  deriving Repr, DecidableEq

/-- From `src/cardanoLauncher.ts` lines 456–512, the async function
`walletExe`.  `freePort` stands for the value of `await getPort()`
(used when `config.apiPort` is unset); `path.join(baseDir, 'wallets')`
is rendered with the POSIX separator.  A `throw` inside this `async`
function surfaces as a rejection of the promise it returns, which is
modelled by `Except.error`. -/
def walletExe (freePort : Nat) (baseDir : String) (config : LaunchConfig) :
    Except String WalletStartService :=
  let apiPort := config.apiPort.getD freePort
  let base : WalletStartService :=
    { command := "cardano-wallet-" ++ config.nodeConfig.kind
    , args :=
        ["serve", "--shutdown-handler", "--port", toString apiPort,
         "--database", baseDir ++ "/wallets"]
        ++ (match config.listenAddress with
            | some a => ["--listen-address", a]
            | none => [])
        ++ (match config.syncToleranceSeconds with
            | some s => ["--sync-tolerance", toString s ++ "s"]
            | none => [])
    , extraEnv :=
        match config.stakePoolRegistryUrl with
        | some u => [("CARDANO_WALLET_STAKE_POOL_REGISTRY_URL", u)]
        | none => []
    , supportsCleanShutdown := true
    , apiPort := apiPort }
  let addArgs : List String → WalletStartService := fun args =>
    { base with args := base.args ++ args }
  match config.nodeConfig with
  | NodeConfig.jormungandr restPort hash =>
    Except.ok (addArgs
      ((match restPort with
        | some p => ["--node-port", toString p]
        | none => [])
        ++ ["--genesis-block-hash", hash]))
  | NodeConfig.byron genesisFile socketFile =>
    if config.networkName ≠ "mainnet" ∧ genesisFile = none then
      Except.error "ByronNetwork.genesisFile must be configured"
    else
      Except.ok (addArgs
        ((if config.networkName = "mainnet"
          then ["--mainnet"]
          else ["--testnet", genesisFile.getD ""])
          ++ (match socketFile with
              | some f => ["--node-socket", f]
              | none => [])))
  | NodeConfig.shelley => Except.ok base

/-- What launcher construction produces.  The `Launcher` constructor
(lines 171–215) synchronously calls `makeServiceCommands`
(lines 440–454), which only *sets up* the promise chains
`node = mkdirp(stateDir).then(nodeExe)` and
`wallet = node.then(walletExe)`; `setupService` stores the promises,
and the chained callbacks — including `walletExe` and its potential
`throw` — run later on the event loop.  No synchronous statement of the
constructor throws, so construction is total.  `walletStart` records
the eventual settlement of the `wallet` promise (its rejection is
consumed at line 198 by `.catch(error => console.error(...))`), and
`spawnCalls` counts processes spawned during construction: spawning
happens only inside `Service.start()`, never in the constructor. -/
structure LauncherInit where
  walletStart : Except String WalletStartService
  spawnCalls : Nat
  deriving Repr

/-- The `Launcher` constructor: an exception it would raise
synchronously would surface as `Except.error`. -/
def launcherConstructor (freePort : Nat) (config : LaunchConfig) :
    Except String LauncherInit :=
  Except.ok
    { walletStart := walletExe freePort config.stateDir config
    , spawnCalls := 0 }

/-- A byron configuration for a non-mainnet network without a genesis
file. -/
def byronTestnetNoGenesis : LaunchConfig :=
  { stateDir := "/tmp/state-launcher"
  , networkName := "testnet"
  , apiPort := none
  , listenAddress := none
  , stakePoolRegistryUrl := none
  , syncToleranceSeconds := none
  , nodeConfig := NodeConfig.byron none none }

/-- C2 counterexample: with backend kind `byron`, a `networkName`
other than `mainnet` and no `genesisFile`, constructing the `Launcher`
does NOT throw synchronously — the constructor completes normally; the
configuration error is deferred to the asynchronous `walletExe` call,
whose promise rejects. -/
theorem constructor_does_not_throw_on_bad_byron_config :
    launcherConstructor 8090 byronTestnetNoGenesis
      = Except.ok
          { walletStart :=
              Except.error "ByronNetwork.genesisFile must be configured"
          , spawnCalls := 0 } := by
  rfl

/-- C2 amended: for backend kind `byron` with `networkName ≠ mainnet`
and no `genesisFile`, constructing the `Launcher` completes without
throwing and spawns no process; the configuration error is raised
asynchronously — the wallet start promise rejects with
"ByronNetwork.genesisFile must be configured" before any wallet
process could be spawned. -/
theorem bad_byron_config_rejects_wallet_start
    (freePort : Nat) (config : LaunchConfig)
    (sf : Option String)
    (hk : config.nodeConfig = NodeConfig.byron none sf)
    (hn : config.networkName ≠ "mainnet") :
    launcherConstructor freePort config
      = Except.ok
          { walletStart :=
              Except.error "ByronNetwork.genesisFile must be configured"
          , spawnCalls := 0 } := by
  simp only [launcherConstructor, walletExe, hk]
  simp [hn]

/-- Witness for C2 amended at the concrete bad configuration. -/
theorem bad_byron_config_rejects_wallet_start_witness :
    launcherConstructor 9999 byronTestnetNoGenesis
      = Except.ok
          { walletStart :=
              Except.error "ByronNetwork.genesisFile must be configured"
          , spawnCalls := 0 } :=
  bad_byron_config_rejects_wallet_start 9999 byronTestnetNoGenesis none rfl
    (by decide)

end CardanoLauncher
